import Mathlib

/-!
Verification of the booking-queue repository: a shallow embedding of the
parts of the system the checked properties speak about, followed by the
theorems settling those properties.

The embedding covers:
  * the Kafka publish handler's partition selection
    (src/kafka-service/src/index.ts, POST /messages);
  * the Kafka consumer's eachMessage handler and the offset-commit rule
    (src/worker-service/src/index.ts, startKafkaWorker);
  * the Redis Streams worker: processStreamMessages / processPendingMessages
    as a state machine over the stream, the pending-entries list (PEL), the
    DLQ stream and the ack log (src/worker-service/src/index.ts);
  * the BullMQ processor pipeline and the queue/job retention options
    (src/worker-service/src/index.ts, src/queue-service/src/index.ts);
  * the API controllers createBookings and getBookingStatus together with
    the per-backend status stores (src/api-service, stream service, kafka
    service).

JavaScript numbers that can be NaN are modelled as `Option Nat` with `none`
standing for NaN; JavaScript string falsiness is modelled by comparison with
the empty string.
-/

set_option autoImplicit false

namespace BookingQueue

/-! ## JavaScript numeric and string helpers -/

/-- JS `parseInt(s)` in base 10 on the strings this system feeds it: the
leading run of decimal digits, `none` (NaN) when the string does not start
with a digit. -/
def jsParseIntDec (s : String) : Option Nat :=
  let ds := s.toList.takeWhile Char.isDigit
  if ds.isEmpty then none
  else some (ds.foldl (fun n c => 10 * n + (c.toNat - 48)) 0)

/-- Value of one character as a base-16 digit, `none` when it is not a hex
digit; this is JS `parseInt(c, 16)` applied to a one-character string. -/
def hexDigitVal (c : Char) : Option Nat :=
  if c.isDigit then some (c.toNat - 48)
  else if decide ('a' ≤ c) && decide (c ≤ 'f') then some (c.toNat - 87)
  else if decide ('A' ≤ c) && decide (c ≤ 'F') then some (c.toNat - 55)
  else none

/-- JS `parseInt(s.slice(-1), 16)` for a non-empty string: the hex value of
the last character, `none` (NaN) when it is not a hex digit. -/
def lastCharHexVal (s : String) : Option Nat :=
  match s.toList.getLast? with
  | some c => hexDigitVal c
  | none => none

/-! ## Kafka service: partition selection (src/kafka-service/src/index.ts,
lines 107-110)

The handler computes
  `data.bookingId ? parseInt(data.bookingId.slice(-1), 16) % 3
                  : Math.floor(Math.random() * 3)`.
The random draw is made explicit as a rational `q` with `0 ≤ q < 1` standing
for the value of `Math.random()`; the empty string stands for a falsy
(absent or empty) bookingId. `none` models NaN (`NaN % 3` is NaN). -/

/-- JS `Math.floor(q * 3)` for the random fallback draw `q`. -/
def floorTimes3 (q : ℚ) : Nat := (Int.floor (3 * q)).toNat

/-- The partition selected by the Kafka publish handler for a given
bookingId (empty string = falsy/absent) and random draw `q`. -/
def selectPartition (bookingId : String) (q : ℚ) : Option Nat :=
  if bookingId = "" then some (floorTimes3 q)
  else (lastCharHexVal bookingId).map (fun n => n % 3)

/-- Claim C5: for a fixed non-empty bookingId the partition selected by the
Kafka publish handler is the same across invocations (it does not depend on
the random source), and with no bookingId the handler falls back to an even
distribution over the 3 partitions: each partition k is selected exactly on
the sub-interval [k/3, (k+1)/3) of the uniform random draw, the three
sub-intervals having equal width. -/
theorem kafka_partition_deterministic_and_fallback_even :
    (∀ (b : String) (q₁ q₂ : ℚ), b ≠ "" →
        selectPartition b q₁ = selectPartition b q₂)
    ∧ (∀ (k : Fin 3) (q : ℚ), ((k.val : ℚ) / 3 ≤ q) → (q < ((k.val : ℚ) + 1) / 3) →
        selectPartition "" q = some k.val) := by
  constructor
  · intro b q₁ q₂ hb
    simp [selectPartition, hb]
  · intro k q h1 h2
    have hk : Int.floor (3 * q) = (k.val : ℤ) := by
      rw [Int.floor_eq_iff]
      constructor
      · push_cast
        linarith
      · push_cast
        linarith
    simp [selectPartition, floorTimes3, hk]

/-- Witness for C5 at concrete inputs: the key "abc123f" gets the same
partition for two different random draws, and a missing key with draw 5/6
lands in partition 2. -/
theorem kafka_partition_deterministic_witness :
    selectPartition "abc123f" 0 = selectPartition "abc123f" (1/2)
    ∧ selectPartition "" (5/6) = some 2 :=
  ⟨kafka_partition_deterministic_and_fallback_even.1 "abc123f" 0 (1/2) (by decide),
   kafka_partition_deterministic_and_fallback_even.2 ⟨2, by norm_num⟩ (5/6)
     (by norm_num) (by norm_num)⟩

/-- Claim C10: for the bookingId "bookingz", whose last character is not a
hexadecimal digit, the handler's `parseInt(bookingId.slice(-1), 16) % 3`
yields NaN (modelled as `none`) rather than a partition index in [0, 3): the
message is sent with an invalid partition value. The random draw argument is
irrelevant in this branch. -/
theorem kafka_partition_nan_for_nonhex_key :
    selectPartition "bookingz" 0 = none
    ∧ lastCharHexVal "bookingz" = none := by
  constructor <;> rfl

/-! ## Kafka worker: the eachMessage handler and offset commit
(src/worker-service/src/index.ts, startKafkaWorker, lines 278-335)

The handler body is one try/catch: the try block parses the message and runs
the five processing steps; the catch block re-publishes the raw message onto
the DLQ topic inside its own inner try/catch and never rethrows. The
outcome of the five steps is abstracted by `ProcessOutcome`; whether the DLQ
send itself succeeds by `dlqSendOk`. Timestamps ("failed-at") are not
modelled. -/

structure KafkaMsg where
  key : Option String
  value : Option String
  offset : String
deriving DecidableEq

structure KafkaDlqMsg where
  key : String
  value : String
  originalTopic : String
  originalPartitionStr : String
  originalOffset : String
  errMsg : String
deriving DecidableEq

inductive ProcessOutcome where
  | ok : ProcessOutcome
  | failed : String → ProcessOutcome
deriving DecidableEq

/-- What one `eachMessage` invocation did: the DLQ messages it produced and
whether it threw out of the handler. -/
structure HandlerResult where
  dlqSent : List KafkaDlqMsg
  threw : Bool
deriving DecidableEq

/-- Embedding of the `eachMessage` handler of startKafkaWorker. Every
processing failure is caught; the catch block sends a DLQ record carrying the
original key, value, topic, partition and offset, and a failing DLQ send is
itself caught, so the handler never rethrows. -/
def eachMessageHandler (topic : String) (partition : Nat) (m : KafkaMsg)
    (outcome : ProcessOutcome) (dlqSendOk : Bool) : HandlerResult :=
  match outcome with
  | .ok => { dlqSent := [], threw := false }
  | .failed err =>
      if dlqSendOk then
        { dlqSent := [{ key := m.key.getD "", value := m.value.getD "",
                        originalTopic := topic,
                        originalPartitionStr := toString partition,
                        originalOffset := m.offset, errMsg := err }],
          threw := false }
      else { dlqSent := [], threw := false }

/-- Model of the consumer runner the worker uses (kafkajs `consumer.run`
with its default auto-commit, library code outside this repository): the
offset of a message is marked processed and committed exactly when its
`eachMessage` handler returns without throwing; a handler that throws leaves
the offset uncommitted. -/
def offsetCommitAdvances (r : HandlerResult) : Bool := !r.threw

def kafkaMsgSample : KafkaMsg :=
  { key := some "m-1", value := some "v", offset := "5" }

/-- Claim C4 counterexample: a concrete message whose processing throws
still has its offset committed, because the handler catches the error,
routes the message to the DLQ and returns normally. -/
theorem kafka_offset_commit_on_failure_cex :
    (eachMessageHandler "booking-events" 0 kafkaMsgSample (.failed "boom") true).threw
      = false
    ∧ offsetCommitAdvances
        (eachMessageHandler "booking-events" 0 kafkaMsgSample (.failed "boom") true)
      = true
    ∧ (eachMessageHandler "booking-events" 0 kafkaMsgSample (.failed "boom") true).dlqSent.length
      = 1 :=
  ⟨rfl, rfl, rfl⟩

/-- Claim C4 as amended: the consumer group's offset advances after every
handler invocation, whether the processing of the message succeeded or
failed, because the handler catches every processing failure (routing the
message to the DLQ topic) and never rethrows. -/
theorem kafka_offset_always_advances (topic : String) (partition : Nat)
    (m : KafkaMsg) (outcome : ProcessOutcome) (dlqSendOk : Bool) :
    (eachMessageHandler topic partition m outcome dlqSendOk).threw = false
    ∧ offsetCommitAdvances (eachMessageHandler topic partition m outcome dlqSendOk)
      = true := by
  cases outcome with
  | ok => exact ⟨rfl, rfl⟩
  | failed err =>
      cases dlqSendOk <;> exact ⟨rfl, rfl⟩

/-! ## BullMQ processor pipeline
(src/worker-service/src/index.ts, lines 50-105)

The success path of the processor: five steps, each preceded by an
`updateProgress` call (10, 30, 50, 80, 90), then a final `updateProgress(100)`
and the confirmed result. `now` and `confNum` stand for the Date-derived
values. -/

structure BookingJobData where
  bookingId : String
  userId : String
  hotelId : String
  checkIn : String
  checkOut : String
  jobId : String
  createdAt : String
deriving DecidableEq

structure BookingResult where
  bookingId : String
  status : String
  confirmedAt : String
  confirmationNumber : String
  workerId : String
deriving DecidableEq

/-- The five pipeline steps with the progress value reported just before
each, in source order. -/
def pipelineSteps : List (Nat × String) :=
  [(10, "validate"), (30, "payment"), (50, "pdf"), (80, "email"), (90, "inventory")]

structure ProcessorRun where
  progress : List Nat
  result : BookingResult
deriving DecidableEq

/-- Embedding of the BullMQ processor's success path: the sequence of
progress values its `updateProgress` calls report, and the returned result. -/
def bullmqProcessBooking (d : BookingJobData) (now confNum workerId : String) :
    ProcessorRun :=
  { progress := pipelineSteps.map Prod.fst ++ [100],
    result := { bookingId := d.bookingId, status := "confirmed",
                confirmedAt := now, confirmationNumber := confNum,
                workerId := workerId } }

/-- Claim C8: on every successful run of the five-step pipeline the reported
progress values are strictly increasing and the last reported value is
100. -/
theorem pipeline_progress_strictly_increasing (d : BookingJobData)
    (now confNum workerId : String) :
    List.Chain' (· < ·) (bullmqProcessBooking d now confNum workerId).progress
    ∧ (bullmqProcessBooking d now confNum workerId).progress.getLast? = some 100 := by
  constructor
  · simp [bullmqProcessBooking, pipelineSteps]
  · rfl

/-! ## BullMQ retention options
(src/queue-service/src/index.ts, lines 23-39 and 62-95;
src/api-service/src/controllers/createBookings.controller.ts, lines 33-46)

BullMQ remove-on-terminal settings: JS `true` removes the job as soon as it
reaches the terminal state, `false` keeps it forever, an object keeps it up
to `age` seconds / `count` jobs. -/

inductive RemoveSetting where
  | always : RemoveSetting
  | never : RemoveSetting
  | keep : Option Nat → Option Nat → RemoveSetting
deriving DecidableEq

structure JobOpts where
  attempts : Option Nat := none
  backoffKind : Option String := none
  backoffDelay : Option Nat := none
  delay : Option Nat := none
  jobId : Option String := none
  removeOnComplete : Option RemoveSetting := none
  removeOnFail : Option RemoveSetting := none
deriving DecidableEq

/-- The queue-service's `defaultJobOptions` for the booking queue: completed
jobs kept up to 3600 s (and at most 1000 of them), failed jobs kept up to
24 x 3600 s. -/
def queueDefaultJobOptions : JobOpts :=
  { attempts := some 3, backoffKind := some "exponential",
    backoffDelay := some 2000,
    removeOnComplete := some (.keep (some 3600) (some 1000)),
    removeOnFail := some (.keep (some 86400) none) }

/-- The options object createBookings sends with every submission to the
queue service: `removeOnComplete: true, removeOnFail: false`. -/
def createBookingsJobOptions : JobOpts :=
  { attempts := some 3, backoffKind := some "exponential",
    backoffDelay := some 2000,
    removeOnComplete := some .always,
    removeOnFail := some .never }

/-- The queue service's POST /jobs builds the per-job options as
`(jobId, ...options)`: the caller's options, with the generated jobId added
when the caller did not set one. -/
def queueServiceAddOpts (jid : String) (o : JobOpts) : JobOpts :=
  { o with jobId := some ((o.jobId).getD jid) }

/-- Model of the broker's option resolution (BullMQ `Queue.add`, library
code outside this repository): per-job options are merged over the queue's
`defaultJobOptions` key-wise, a key set on the job overriding the default. -/
def effectiveJobOpts (defaults opts : JobOpts) : JobOpts :=
  { attempts := opts.attempts.orElse (fun _ => defaults.attempts),
    backoffKind := opts.backoffKind.orElse (fun _ => defaults.backoffKind),
    backoffDelay := opts.backoffDelay.orElse (fun _ => defaults.backoffDelay),
    delay := opts.delay.orElse (fun _ => defaults.delay),
    jobId := opts.jobId.orElse (fun _ => defaults.jobId),
    removeOnComplete := opts.removeOnComplete.orElse (fun _ => defaults.removeOnComplete),
    removeOnFail := opts.removeOnFail.orElse (fun _ => defaults.removeOnFail) }

/-- The options a job submitted through the main createBookings path ends up
with on the broker. -/
def createBookingsEffectiveOpts : JobOpts :=
  effectiveJobOpts queueDefaultJobOptions
    (queueServiceAddOpts "j-1" createBookingsJobOptions)

/-- Claim C7 counterexample: a job submitted through createBookings does NOT
get the 1-hour/24-hour retention windows: its options override the queue
defaults with `removeOnComplete: true` (removed as soon as it completes) and
`removeOnFail: false` (never garbage-collected). -/
theorem createBookings_retention_overridden_cex :
    createBookingsEffectiveOpts.removeOnComplete = some .always
    ∧ createBookingsEffectiveOpts.removeOnComplete
        ≠ some (.keep (some 3600) (some 1000))
    ∧ createBookingsEffectiveOpts.removeOnFail = some .never
    ∧ createBookingsEffectiveOpts.removeOnFail ≠ some (.keep (some 86400) none) := by
  refine ⟨rfl, ?_, rfl, ?_⟩ <;> decide

/-- Claim C7 as amended: the bounded retention windows (completed jobs kept
1 hour / at most 1000, failed jobs kept 24 hours) are the queue's defaults
and apply to jobs enqueued without caller options; the main createBookings
path overrides them, so its completed jobs are removed immediately and its
failed jobs are never age-limited. -/
theorem retention_defaults_and_createBookings_override :
    ((effectiveJobOpts queueDefaultJobOptions (queueServiceAddOpts "j-2" {})).removeOnComplete
        = some (.keep (some 3600) (some 1000)))
    ∧ ((effectiveJobOpts queueDefaultJobOptions (queueServiceAddOpts "j-2" {})).removeOnFail
        = some (.keep (some 86400) none))
    ∧ createBookingsEffectiveOpts.removeOnComplete = some .always
    ∧ createBookingsEffectiveOpts.removeOnFail = some .never :=
  ⟨rfl, rfl, rfl, rfl⟩

/-! ## API service: createBookings
(src/api-service/src/controllers/createBookings.controller.ts, lines 9-78)

The controller validates the request, then fans out to the three backends
with Promise.allSettled and builds one per-backend entry from each settled
outcome; the overall response is 201 whenever validation passed, regardless
of the three outcomes. A `Settled` value is one allSettled slot; `reason` is
the rejection's `message` (`none` when absent). -/

inductive Settled (α : Type) where
  | fulfilled : α → Settled α
  | rejected : Option String → Settled α
deriving DecidableEq

def Settled.isRejected {α : Type} : Settled α → Bool
  | .fulfilled _ => false
  | .rejected _ => true

/-- The fields of a backend's 201 response body the controller reads
(`value.data.jobId` / `value.data.messageId`). -/
structure EnqueueData where
  jobId : Option String := none
  messageId : Option String := none
deriving DecidableEq

/-- One per-queue entry of the booking response. -/
structure QueueEntry where
  jobId : Option String := none
  messageId : Option String := none
  status : String
  errMsg : Option String := none
deriving DecidableEq

/-- JS `reason?.message || 'Unknown error'`: the message when present and
truthy, the fallback otherwise. -/
def reasonMessage (reason : Option String) : String :=
  match reason with
  | some m => if m = "" then "Unknown error" else m
  | none => "Unknown error"

/-- The bullmq entry of the response (lines 60-62). -/
def bullmqEntryOf : Settled EnqueueData → QueueEntry
  | .fulfilled v => { jobId := v.jobId, status := "queued" }
  | .rejected reason => { status := "error", errMsg := some (reasonMessage reason) }

/-- The redisStreams entry of the response (lines 63-65). -/
def streamsEntryOf : Settled EnqueueData → QueueEntry
  | .fulfilled v => { messageId := v.messageId, status := "queued" }
  | .rejected reason => { status := "error", errMsg := some (reasonMessage reason) }

/-- The kafka entry of the response (lines 66-68). -/
def kafkaEntryOf : Settled EnqueueData → QueueEntry
  | .fulfilled v => { messageId := v.messageId, status := "queued" }
  | .rejected reason => { status := "error", errMsg := some (reasonMessage reason) }

structure BookingQueuesOut where
  bullmq : QueueEntry
  redisStreams : QueueEntry
  kafka : QueueEntry
deriving DecidableEq

structure BookingResponseOut where
  bookingId : String
  queues : BookingQueuesOut
deriving DecidableEq

def buildBookingResponse (bid : String) (b s k : Settled EnqueueData) :
    BookingResponseOut :=
  { bookingId := bid,
    queues := { bullmq := bullmqEntryOf b, redisStreams := streamsEntryOf s,
                kafka := kafkaEntryOf k } }

structure BookingRequestIn where
  userId : String
  hotelId : String
  checkIn : String
  checkOut : String
deriving DecidableEq

/-- The controller's validation guard: all four required fields truthy. -/
def validBookingRequest (r : BookingRequestIn) : Bool :=
  !(r.userId == "") && !(r.hotelId == "") && !(r.checkIn == "") && !(r.checkOut == "")

/-- Embedding of createBookings as a function of the request and the three
settled enqueue outcomes: the HTTP status code and the body (none on 400). -/
def createBookingsRespond (r : BookingRequestIn) (bid : String)
    (b s k : Settled EnqueueData) : Nat × Option BookingResponseOut :=
  if validBookingRequest r then (201, some (buildBookingResponse bid b s k))
  else (400, none)

/-- Claim C6: when at least one backend's enqueue fails, the response is
still the normal 201 booking response; a rejected backend is reported with
status "error" and its error message, a fulfilled backend with status
"queued" and its id; and each backend's entry is a function of that
backend's own outcome alone. -/
theorem createBookings_partial_failure_reported (r : BookingRequestIn)
    (bid : String) (b s k : Settled EnqueueData)
    (hv : validBookingRequest r = true)
    (hone : b.isRejected = true ∨ s.isRejected = true ∨ k.isRejected = true) :
    (createBookingsRespond r bid b s k).1 = 201
    ∧ (createBookingsRespond r bid b s k).2 = some (buildBookingResponse bid b s k)
    ∧ (buildBookingResponse bid b s k).queues.bullmq = bullmqEntryOf b
    ∧ (buildBookingResponse bid b s k).queues.redisStreams = streamsEntryOf s
    ∧ (buildBookingResponse bid b s k).queues.kafka = kafkaEntryOf k
    ∧ (∀ v, b = .fulfilled v →
        bullmqEntryOf b = { jobId := v.jobId, status := "queued" })
    ∧ (∀ reason, b = .rejected reason →
        bullmqEntryOf b = { status := "error", errMsg := some (reasonMessage reason) })
    ∧ (∀ v, s = .fulfilled v →
        streamsEntryOf s = { messageId := v.messageId, status := "queued" })
    ∧ (∀ reason, s = .rejected reason →
        streamsEntryOf s = { status := "error", errMsg := some (reasonMessage reason) })
    ∧ (∀ v, k = .fulfilled v →
        kafkaEntryOf k = { messageId := v.messageId, status := "queued" })
    ∧ (∀ reason, k = .rejected reason →
        kafkaEntryOf k = { status := "error", errMsg := some (reasonMessage reason) }) := by
  refine ⟨?_, ?_, rfl, rfl, rfl, ?_, ?_, ?_, ?_, ?_, ?_⟩
  · simp [createBookingsRespond, hv]
  · simp [createBookingsRespond, hv]
  all_goals (intro x hx; subst hx; rfl)

def requestSample : BookingRequestIn :=
  { userId := "u-1", hotelId := "h-1", checkIn := "2024-01-15", checkOut := "2024-01-20" }

/-- Witness for C6 at a concrete partial failure: bullmq and kafka succeed,
the stream service's enqueue is rejected with message "connect ECONNREFUSED";
the response is 201 and reports the mixture. -/
theorem createBookings_partial_failure_witness :
    (createBookingsRespond requestSample "b-1"
        (.fulfilled { jobId := some "j-9" })
        (.rejected (some "connect ECONNREFUSED"))
        (.fulfilled { messageId := some "m-9" })).1 = 201
    ∧ streamsEntryOf (.rejected (some "connect ECONNREFUSED"))
        = { status := "error", errMsg := some "connect ECONNREFUSED" } := by
  have h := createBookings_partial_failure_reported requestSample "b-1"
    (.fulfilled { jobId := some "j-9" })
    (.rejected (some "connect ECONNREFUSED"))
    (.fulfilled { messageId := some "m-9" })
    (by decide) (Or.inr (Or.inl rfl))
  exact ⟨h.1, h.2.2.2.2.2.2.2.2.1 (some "connect ECONNREFUSED") rfl⟩

/-! ## Status lookup by bookingId
(src/api-service/src/controllers/getBookingStatus.controller.ts, lines 9-22;
stream service GET /messages/:messageId; src/kafka-service/src/index.ts,
lines 145-152)

Both the stream service and the kafka service key their status records by
the messageId freshly generated (uuidv4) in their POST handlers, not by the
bookingId inside the payload. The aggregate controller queries each backend
with the path's bookingId and maps any per-backend HTTP error (the 404 of a
missing record) to null through `.catch(() => ({ data: null }))`.

Uuid draws are modelled as an abstract supply `u : ℕ → String`; a submission
is recorded as the index of the draw used for its messageId together with
its booking payload. -/

structure BookingPayload where
  bookingId : String
  userId : String
  hotelId : String
deriving DecidableEq

/-- One stored stream message as the stream service's GET parses it: the
stream entry id and the parsed `data` JSON, whose messageId field the GET
compares with the path parameter. -/
structure StreamStoredMsg where
  streamId : String
  messageId : String
  booking : BookingPayload
deriving DecidableEq

/-- The stream service's POST /messages: XADD of a new entry whose `data`
carries the freshly drawn messageId. -/
def streamsPostMessage (store : List StreamStoredMsg) (sid mid : String)
    (d : BookingPayload) : List StreamStoredMsg :=
  store ++ [{ streamId := sid, messageId := mid, booking := d }]

/-- The stream service's GET /messages/:messageId: scan the stream and
return the first entry whose parsed data.messageId equals the parameter. -/
def streamsGetMessage (store : List StreamStoredMsg) (mid : String) :
    Option StreamStoredMsg :=
  store.find? (fun e => e.messageId == mid)

/-- One kafka-service metadata record, stored under its messageId key. -/
structure KafkaStoredMeta where
  messageId : String
  partition : Option Nat
  offset : String
deriving DecidableEq

/-- The kafka service's POST /messages: `messageStore.set(messageId, metadata)`. -/
def kafkaPostMessage (store : List KafkaStoredMeta) (mid : String)
    (part : Option Nat) (off : String) : List KafkaStoredMeta :=
  store ++ [{ messageId := mid, partition := part, offset := off }]

/-- The kafka service's GET /messages/:messageId: `messageStore.get(messageId)`. -/
def kafkaGetMessage (store : List KafkaStoredMeta) (mid : String) :
    Option KafkaStoredMeta :=
  store.find? (fun e => e.messageId == mid)

/-- The streams store after a list of submissions, each drawing its
messageId at the given supply index (the stream entry id is not relevant to
the lookup and reuses the draw). -/
def streamsStoreOf (u : ℕ → String) (subs : List (ℕ × BookingPayload)) :
    List StreamStoredMsg :=
  subs.foldl (fun st p => streamsPostMessage st (u p.1) (u p.1) p.2) []

/-- The kafka store after the same submissions. -/
def kafkaStoreOf (u : ℕ → String) (subs : List (ℕ × BookingPayload)) :
    List KafkaStoredMeta :=
  subs.foldl (fun st p => kafkaPostMessage st (u p.1) (some 0) "0") []

/-- The aggregate body of getBookingStatus: one field per backend, none when
that backend answered with an error (its record was not found). The bullmq
field is opaque here. -/
structure AggregateStatus where
  bullmq : Option String
  redisStreams : Option StreamStoredMsg
  kafka : Option KafkaStoredMeta
deriving DecidableEq

/-- Embedding of getBookingStatus: each backend is queried with the
bookingId path parameter; a missing record (404) becomes null. -/
def getBookingStatusAgg (bull : Option String) (sStore : List StreamStoredMsg)
    (kStore : List KafkaStoredMeta) (bid : String) : AggregateStatus :=
  { bullmq := bull,
    redisStreams := streamsGetMessage sStore bid,
    kafka := kafkaGetMessage kStore bid }

lemma streamsStoreOf_messageIds (u : ℕ → String) (subs : List (ℕ × BookingPayload))
    (init : List StreamStoredMsg) :
    ∀ e ∈ subs.foldl (fun st p => streamsPostMessage st (u p.1) (u p.1) p.2) init,
      e ∈ init ∨ ∃ p ∈ subs, e.messageId = u p.1 := by
  induction subs generalizing init with
  | nil => intro e he; exact Or.inl he
  | cons q qs ih =>
      intro e he
      rcases ih (streamsPostMessage init (u q.1) (u q.1) q.2) e he with h | ⟨p, hp, hm⟩
      · rcases List.mem_append.mp h with h0 | h1
        · exact Or.inl h0
        · refine Or.inr ⟨q, List.mem_cons_self q qs, ?_⟩
          simp only [List.mem_singleton] at h1
          subst h1
          rfl
      · exact Or.inr ⟨p, List.mem_cons_of_mem q hp, hm⟩

lemma kafkaStoreOf_messageIds (u : ℕ → String) (subs : List (ℕ × BookingPayload))
    (init : List KafkaStoredMeta) :
    ∀ e ∈ subs.foldl (fun st p => kafkaPostMessage st (u p.1) (some 0) "0") init,
      e ∈ init ∨ ∃ p ∈ subs, e.messageId = u p.1 := by
  induction subs generalizing init with
  | nil => intro e he; exact Or.inl he
  | cons q qs ih =>
      intro e he
      rcases ih (kafkaPostMessage init (u q.1) (some 0) "0") e he with h | ⟨p, hp, hm⟩
      · rcases List.mem_append.mp h with h0 | h1
        · exact Or.inl h0
        · refine Or.inr ⟨q, List.mem_cons_self q qs, ?_⟩
          simp only [List.mem_singleton] at h1
          subst h1
          rfl
      · exact Or.inr ⟨p, List.mem_cons_of_mem q hp, hm⟩

/-- Claim C9: looking the booking up by its bookingId yields no record from
the stream and kafka backends: both key their stores by messageIds drawn
freshly (at supply indices different from the bookingId's draw, `hfresh`),
and their lookup endpoints compare the path parameter against that
messageId, so the aggregate status reports null for both. -/
theorem status_by_bookingId_null_for_streams_and_kafka (u : ℕ → String)
    (i : ℕ) (subs : List (ℕ × BookingPayload)) (bull : Option String)
    (hfresh : ∀ p ∈ subs, u p.1 ≠ u i) :
    (getBookingStatusAgg bull (streamsStoreOf u subs) (kafkaStoreOf u subs)
        (u i)).redisStreams = none
    ∧ (getBookingStatusAgg bull (streamsStoreOf u subs) (kafkaStoreOf u subs)
        (u i)).kafka = none := by
  constructor
  · show streamsGetMessage (streamsStoreOf u subs) (u i) = none
    apply List.find?_eq_none.mpr
    intro e he
    rcases streamsStoreOf_messageIds u subs [] e he with h | ⟨p, hp, hm⟩
    · simp at h
    · simp only [beq_iff_eq]
      rw [hm]
      exact hfresh p hp
  · show kafkaGetMessage (kafkaStoreOf u subs) (u i) = none
    apply List.find?_eq_none.mpr
    intro e he
    rcases kafkaStoreOf_messageIds u subs [] e he with h | ⟨p, hp, hm⟩
    · simp at h
    · simp only [beq_iff_eq]
      rw [hm]
      exact hfresh p hp

/-- A two-value uuid supply for the witness: draw 0 is the bookingId, every
later draw is a distinct messageId. -/
def uuidSampleSupply : ℕ → String :=
  fun n => if n = 0 then "b-7" else "m-7"

def submissionSample : List (ℕ × BookingPayload) :=
  [(1, { bookingId := "b-7", userId := "u-1", hotelId := "h-1" })]

/-- Witness for C9 at a concrete submission: one booking stored under the
fresh messageId draw; the aggregate lookup by the bookingId draw reports
null for the streams and kafka backends. -/
theorem status_by_bookingId_null_witness :
    (getBookingStatusAgg none (streamsStoreOf uuidSampleSupply submissionSample)
        (kafkaStoreOf uuidSampleSupply submissionSample)
        (uuidSampleSupply 0)).redisStreams = none
    ∧ (getBookingStatusAgg none (streamsStoreOf uuidSampleSupply submissionSample)
        (kafkaStoreOf uuidSampleSupply submissionSample)
        (uuidSampleSupply 0)).kafka = none :=
  status_by_bookingId_null_for_streams_and_kafka uuidSampleSupply 0
    submissionSample none (by decide)

/-! ## Redis Streams worker
(src/worker-service/src/index.ts, lines 115-259)

The worker's state: the entries appended to the stream but never yet
delivered to the consumer group (what the `'>'` cursor of xreadgroup
returns), the pending-entries list (PEL), the DLQ stream, the acknowledged
ids, and a log of every delivery whose processing was started (one id
appended per processing attempt).

The five-step processing of one delivery is abstracted by a `succeeds`
oracle on the message id; its thrown error message is not significant to the
properties and is fixed to "error". -/

structure StreamEntry where
  id : String
  fields : List String
deriving DecidableEq

structure PelEntry where
  entry : StreamEntry
  owner : String
  idleMs : Nat
  deliveryCount : Nat
deriving DecidableEq

structure StreamDlqRecord where
  originalMessageId : String
  originalStream : String
  errMsg : String
  payload : String
deriving DecidableEq

structure WorkerState where
  newEntries : List StreamEntry
  pel : List PelEntry
  dlq : List StreamDlqRecord
  acked : List String
  processedLog : List String
deriving DecidableEq

/-- JS `fields.find((f, i) => fields[i - 1] === key)` on the flat
field-value array: the element following the first occurrence of `key`. -/
def fieldLookup (key : String) : List String → Option String
  | a :: b :: rest => if a = key then some b else fieldLookup key (b :: rest)
  | _ => none

/-- `parseInt(retryCountField || '0')` of processStreamMessages, line 184:
`none` models NaN (a present but non-numeric field). -/
def retryCountOf (fields : List String) : Option Nat :=
  jsParseIntDec ((fieldLookup "retryCount" fields).getD "0")

/-- The guard `retryCount < 3` of line 186, where retryCount may be NaN
(`NaN < 3` is false in JS). -/
def retryBelowMax (fields : List String) : Bool :=
  match retryCountOf fields with
  | some n => decide (n < 3)
  | none => false

/-- xack: drop the id from the PEL. -/
def ackRemove (mid : String) (pel : List PelEntry) : List PelEntry :=
  pel.filter (fun p => !(p.entry.id == mid))

/-- The DLQ record xadd-ed at lines 192-200. -/
def mkStreamDlqRecord (e : StreamEntry) : StreamDlqRecord :=
  { originalMessageId := e.id, originalStream := "booking-stream",
    errMsg := "error", payload := (fieldLookup "data" e.fields).getD "" }

/-- Embedding of the body of the message loop in processStreamMessages
(lines 151-206): process the delivery; on success xack; on failure consult
the retryCount field of the delivered entry, leave it pending when below the
maximum, otherwise xadd a DLQ record and xack. -/
def processEntry (succeeds : String → Bool) (s : WorkerState) (e : StreamEntry) :
    WorkerState :=
  if succeeds e.id then
    { newEntries := s.newEntries, pel := ackRemove e.id s.pel, dlq := s.dlq,
      acked := s.acked ++ [e.id], processedLog := s.processedLog ++ [e.id] }
  else if retryBelowMax e.fields then
    { s with processedLog := s.processedLog ++ [e.id] }
  else
    { newEntries := s.newEntries, pel := ackRemove e.id s.pel,
      dlq := s.dlq ++ [mkStreamDlqRecord e], acked := s.acked ++ [e.id],
      processedLog := s.processedLog ++ [e.id] }

/-- Embedding of processStreamMessages (lines 135-213): xreadgroup with the
`'>'` cursor and COUNT 10 delivers up to 10 never-delivered entries; each
delivered entry enters the PEL owned by this consumer, then each is
processed in order. -/
def processStreamMsgs (succeeds : String → Bool) (self : String)
    (s : WorkerState) : WorkerState :=
  let batch := s.newEntries.take 10
  let s1 : WorkerState :=
    { s with newEntries := s.newEntries.drop 10,
             pel := s.pel ++ batch.map (fun e =>
               { entry := e, owner := self, idleMs := 0, deliveryCount := 1 }) }
  batch.foldl (processEntry succeeds) s1

/-- Embedding of the guard at line 225:
`parseInt(idleTime) > 60000 && consumer === CONSUMER_NAME`. -/
def claimEligible (self : String) (p : PelEntry) : Bool :=
  decide (p.idleMs > 60000) && (p.owner == self)

/-- xclaim (lines 227-233) guarded by line 225: when the id is still pending
and the guard holds, ownership moves to this consumer, the idle time resets
and the delivery count increments; otherwise nothing is claimed. -/
def claimEntry (self : String) (mid : String) (s : WorkerState) :
    Option WorkerState :=
  match s.pel.find? (fun p => p.entry.id == mid) with
  | none => none
  | some p =>
      if claimEligible self p then
        some { s with pel := s.pel.map (fun q =>
          if q.entry.id == mid then
            { q with owner := self, idleMs := 0, deliveryCount := q.deliveryCount + 1 }
          else q) }
      else none

def processPendingAux (succeeds : String → Bool) (self : String) :
    List String → WorkerState → WorkerState
  | [], s => s
  | mid :: rest, s =>
      match claimEntry self mid s with
      | some s1 => processPendingAux succeeds self rest
          (processStreamMsgs succeeds self s1)
      | none => processPendingAux succeeds self rest s

/-- Embedding of processPendingMessages (lines 216-246): xpending lists up
to 10 pending entries; for each one that the guard lets this consumer claim,
xclaim it and then call processStreamMessages (which reads with the `'>'`
cursor, not the claimed id). -/
def processPendingMsgs (succeeds : String → Bool) (self : String)
    (s : WorkerState) : WorkerState :=
  processPendingAux succeeds self ((s.pel.take 10).map (fun p => p.entry.id)) s

/-- One atomic event of the worker loop (startStreamsWorker runs readNew
then scanPending every 2000 ms; elapse is the idle time accruing between
events). -/
inductive WorkerOp where
  | readNew : WorkerOp
  | scanPending : WorkerOp
  | elapse : Nat → WorkerOp
deriving DecidableEq

def applyOp (succeeds : String → Bool) (self : String) (s : WorkerState) :
    WorkerOp → WorkerState
  | .readNew => processStreamMsgs succeeds self s
  | .scanPending => processPendingMsgs succeeds self s
  | .elapse ms => { s with pel := s.pel.map (fun p => { p with idleMs := p.idleMs + ms }) }

def runWorker (succeeds : String → Bool) (self : String) :
    List WorkerOp → WorkerState → WorkerState
  | [], s => s
  | op :: rest, s => runWorker succeeds self rest (applyOp succeeds self s op)

/-- The initial worker state holding one just-appended entry. -/
def initialState (e : StreamEntry) : WorkerState :=
  { newEntries := [e], pel := [], dlq := [], acked := [], processedLog := [] }

/-! ### The bounded-retries invariant

A message id `i` whose deliveries always fail and whose entry carries no
retryCount that the DLQ branch could accept keeps the worker state inside
this invariant: no DLQ record for `i`, no ack of `i`, and every copy of the
entry still in flight is one the retry guard keeps pending. -/

structure StuckInv (i : String) (s : WorkerState) : Prop where
  newGood : ∀ e ∈ s.newEntries, e.id = i → retryBelowMax e.fields = true
  pelGood : ∀ p ∈ s.pel, p.entry.id = i → retryBelowMax p.entry.fields = true
  dlqFree : ∀ r ∈ s.dlq, r.originalMessageId ≠ i
  ackFree : ∀ a ∈ s.acked, a ≠ i

lemma stuckInv_processEntry {i : String} {succeeds : String → Bool}
    (hfail : succeeds i = false) {s : WorkerState} {e : StreamEntry}
    (hgood : e.id = i → retryBelowMax e.fields = true)
    (h : StuckInv i s) : StuckInv i (processEntry succeeds s e) := by
  by_cases hs : succeeds e.id = true
  · have hne : e.id ≠ i := by
      intro heq
      rw [heq, hfail] at hs
      exact Bool.false_ne_true hs
    simp only [processEntry, hs, if_true]
    refine ⟨h.newGood, ?_, h.dlqFree, ?_⟩
    · intro p hp
      exact h.pelGood p (List.mem_of_mem_filter hp)
    · intro a ha
      rcases List.mem_append.mp ha with h0 | h1
      · exact h.ackFree a h0
      · simp only [List.mem_singleton] at h1
        subst h1
        exact hne
  · have hs' : succeeds e.id = false := Bool.eq_false_iff.mpr hs
    by_cases hr : retryBelowMax e.fields = true
    · simp only [processEntry, hs', Bool.false_eq_true, if_false, hr, if_true]
      exact ⟨h.newGood, h.pelGood, h.dlqFree, h.ackFree⟩
    · have hne : e.id ≠ i := fun heq => hr (hgood heq)
      simp only [processEntry, hs', Bool.false_eq_true, if_false, hr]
      refine ⟨h.newGood, ?_, ?_, ?_⟩
      · intro p hp
        exact h.pelGood p (List.mem_of_mem_filter hp)
      · intro r hrm
        rcases List.mem_append.mp hrm with h0 | h1
        · exact h.dlqFree r h0
        · simp only [List.mem_singleton] at h1
          subst h1
          exact hne
      · intro a ha
        rcases List.mem_append.mp ha with h0 | h1
        · exact h.ackFree a h0
        · simp only [List.mem_singleton] at h1
          subst h1
          exact hne

lemma stuckInv_foldl {i : String} {succeeds : String → Bool}
    (hfail : succeeds i = false) :
    ∀ (batch : List StreamEntry) (s : WorkerState),
      (∀ e ∈ batch, e.id = i → retryBelowMax e.fields = true) →
      StuckInv i s → StuckInv i (batch.foldl (processEntry succeeds) s) := by
  intro batch
  induction batch with
  | nil => intro s _ h; exact h
  | cons e rest ih =>
      intro s hbatch h
      exact ih (processEntry succeeds s e)
        (fun x hx => hbatch x (List.mem_cons_of_mem e hx))
        (stuckInv_processEntry hfail (hbatch e (List.mem_cons_self e rest)) h)

lemma stuckInv_processStreamMsgs {i : String} {succeeds : String → Bool}
    (hfail : succeeds i = false) {self : String} {s : WorkerState}
    (h : StuckInv i s) : StuckInv i (processStreamMsgs succeeds self s) := by
  have hbatch : ∀ e ∈ s.newEntries.take 10, e.id = i → retryBelowMax e.fields = true :=
    fun e he => h.newGood e (List.take_subset 10 s.newEntries he)
  refine stuckInv_foldl hfail _ _ hbatch ?_
  refine ⟨?_, ?_, h.dlqFree, h.ackFree⟩
  · intro e he
    exact h.newGood e (List.drop_subset 10 s.newEntries he)
  · intro p hp
    rcases List.mem_append.mp hp with h0 | h1
    · exact h.pelGood p h0
    · rcases List.mem_map.mp h1 with ⟨e, he, hpe⟩
      subst hpe
      exact hbatch e he

lemma stuckInv_claimEntry {i : String} {self mid : String}
    {s s1 : WorkerState} (hc : claimEntry self mid s = some s1)
    (h : StuckInv i s) : StuckInv i s1 := by
  rcases hfind : s.pel.find? (fun p => p.entry.id == mid) with _ | p
  · simp only [claimEntry, hfind] at hc
    exact absurd hc (by simp)
  · simp only [claimEntry, hfind] at hc
    by_cases he : claimEligible self p = true
    · rw [if_pos he] at hc
      injection hc with hc
      subst hc
      refine ⟨h.newGood, ?_, h.dlqFree, h.ackFree⟩
      intro q hq
      rcases List.mem_map.mp hq with ⟨q0, hq0, hqe⟩
      subst hqe
      by_cases hid : q0.entry.id == mid
      · simp only [hid, if_true]
        exact h.pelGood q0 hq0
      · simp only [hid, if_false]
        exact h.pelGood q0 hq0
    · rw [if_neg he] at hc
      exact absurd hc (by simp)


lemma stuckInv_processPendingAux {i : String} {succeeds : String → Bool}
    (hfail : succeeds i = false) {self : String} :
    ∀ (ids : List String) (s : WorkerState),
      StuckInv i s → StuckInv i (processPendingAux succeeds self ids s) := by
  intro ids
  induction ids with
  | nil => intro s h; exact h
  | cons mid rest ih =>
      intro s h
      simp only [processPendingAux]
      rcases hc : claimEntry self mid s with _ | s1
      · exact ih s h
      · exact ih (processStreamMsgs succeeds self s1)
          (stuckInv_processStreamMsgs hfail (stuckInv_claimEntry hc h))

lemma stuckInv_applyOp {i : String} {succeeds : String → Bool}
    (hfail : succeeds i = false) {self : String} {s : WorkerState}
    (h : StuckInv i s) : ∀ op : WorkerOp, StuckInv i (applyOp succeeds self s op) := by
  intro op
  cases op with
  | readNew => exact stuckInv_processStreamMsgs hfail h
  | scanPending => exact stuckInv_processPendingAux hfail _ _ h
  | elapse ms =>
      refine ⟨h.newGood, ?_, h.dlqFree, h.ackFree⟩
      intro p hp
      rcases List.mem_map.mp hp with ⟨q, hq, hqe⟩
      subst hqe
      exact h.pelGood q hq

lemma stuckInv_runWorker {i : String} {succeeds : String → Bool}
    (hfail : succeeds i = false) {self : String} :
    ∀ (ops : List WorkerOp) (s : WorkerState),
      StuckInv i s → StuckInv i (runWorker succeeds self ops s) := by
  intro ops
  induction ops with
  | nil => intro s h; exact h
  | cons op rest ih =>
      intro s h
      exact ih (applyOp succeeds self s op) (stuckInv_applyOp hfail h op)

/-- Claim C1: the append-log worker never dead-letters a job that fails on
every delivery. A producer entry carries no retryCount field, the failure
branch never writes an incremented count anywhere, and redelivery reads only
the `'>'` cursor, so under every schedule of worker-loop events the retry
count consulted at line 184 stays 0, no DLQ record for the entry is ever
published, and the entry is never acknowledged — it is not dead-lettered
after 3 attempts (nor ever). -/
theorem streams_failing_job_never_dead_lettered (e0 : StreamEntry)
    (succeeds : String → Bool) (self : String) (ops : List WorkerOp)
    (hfail : succeeds e0.id = false)
    (hnofield : fieldLookup "retryCount" e0.fields = none) :
    ((runWorker succeeds self ops (initialState e0)).dlq.all
        (fun r => !(r.originalMessageId == e0.id))) = true
    ∧ ((runWorker succeeds self ops (initialState e0)).acked.all
        (fun a => !(a == e0.id))) = true := by
  have hcount : retryCountOf e0.fields = some 0 := by
    rw [retryCountOf, hnofield]
    rfl
  have hretry : retryBelowMax e0.fields = true := by
    simp [retryBelowMax, hcount]
  have h0 : StuckInv e0.id (initialState e0) := by
    refine ⟨?_, ?_, ?_, ?_⟩
    · intro e he
      simp only [initialState, List.mem_singleton] at he
      subst he
      intro _
      exact hretry
    · intro p hp; exact absurd hp (by simp [initialState])
    · intro r hr; exact absurd hr (by simp [initialState])
    · intro a ha; exact absurd ha (by simp [initialState])
  have h := @stuckInv_runWorker e0.id succeeds hfail self ops (initialState e0) h0
  constructor
  · refine List.all_eq_true.mpr ?_
    intro r hr
    simpa using h.dlqFree r hr
  · refine List.all_eq_true.mpr ?_
    intro a ha
    simpa using h.ackFree a ha

def entrySample : StreamEntry :=
  { id := "1-1", fields := ["type", "booking", "messageId", "m-1", "data", "payload"] }

def succAllFail : String → Bool := fun _ => false

def opsSample : List WorkerOp :=
  [.readNew, .elapse 70000, .scanPending, .readNew, .elapse 70000, .scanPending]

/-- Witness for C1 at a concrete run: a producer-shaped entry whose
processing always fails, driven through three loop iterations with idle time
accruing; no DLQ record appears and nothing is acknowledged. -/
theorem streams_failing_job_never_dead_lettered_witness :
    ((runWorker succAllFail "consumer-w1" opsSample (initialState entrySample)).dlq.all
        (fun r => !(r.originalMessageId == entrySample.id))) = true
    ∧ ((runWorker succAllFail "consumer-w1" opsSample (initialState entrySample)).acked.all
        (fun a => !(a == entrySample.id))) = true :=
  streams_failing_job_never_dead_lettered entrySample succAllFail "consumer-w1"
    opsSample rfl (by decide)

/-- A state whose only in-flight work is one stale pending entry owned by
this very consumer (idle 70000 ms > 60000 ms), with no new entries. -/
def pelStuckState : WorkerState :=
  { newEntries := [],
    pel := [{ entry := entrySample, owner := "consumer-w1", idleMs := 70000,
              deliveryCount := 1 }],
    dlq := [], acked := [], processedLog := [] }

/-- Claim C2: processPendingMessages does claim the stale entry (its idle
time resets and its delivery count increments, so xclaim succeeded), but the
processStreamMessages call it then makes reads only the `'>'` cursor, so the
claimed entry's payload is never re-processed: the processing log stays
empty. -/
theorem claimed_entry_not_reprocessed :
    (processPendingMsgs succAllFail "consumer-w1" pelStuckState).pel
      = [{ entry := entrySample, owner := "consumer-w1", idleMs := 0,
           deliveryCount := 2 }]
    ∧ (processPendingMsgs succAllFail "consumer-w1" pelStuckState).processedLog
      = [] := by
  constructor <;> rfl

/-- A state whose only pending entry is stale but owned by a different
consumer of the same group. -/
def foreignPelState : WorkerState :=
  { newEntries := [],
    pel := [{ entry := entrySample, owner := "consumer-w2", idleMs := 70000,
              deliveryCount := 1 }],
    dlq := [], acked := [], processedLog := [] }

/-- Claim C3: an entry pending for longer than the 60000 ms threshold is NOT
eligible for transfer to a scanning consumer that does not already own it:
the guard at line 225 requires `consumer === CONSUMER_NAME`, so the scan of
consumer-w1 leaves consumer-w2's stale entry untouched (the whole state is
unchanged), while the same entry would satisfy the guard only for its
current owner. -/
theorem stale_foreign_entry_not_claimed :
    claimEligible "consumer-w1"
        { entry := entrySample, owner := "consumer-w2", idleMs := 70000,
          deliveryCount := 1 } = false
    ∧ processPendingMsgs succAllFail "consumer-w1" foreignPelState = foreignPelState
    ∧ claimEligible "consumer-w2"
        { entry := entrySample, owner := "consumer-w2", idleMs := 70000,
          deliveryCount := 1 } = true := by
  refine ⟨by decide, by rfl, by decide⟩

end BookingQueue
